import Mathlib

/-!
Shallow embedding of `src/cdksubnetroutetable.ts` (the `SubnetWithRouteTable`
CDK construct) and proofs of the specification claims about it.

Modelling conventions:
- JS strings are Lean `String`.
- The TS union type `'tgw' | 'vpc-endpoint' | 'internet-gateway' | 'nat-gateway'`
  is modelled as an open `String`, because `resolveTarget` has a runtime
  `default` branch that throws on any other string (the union is erased at
  runtime).
- An optional field (`routeEntries?`, `subnetTags?`) is `Option _`; a JS
  key-value object is an association list `List (String × String)` whose order
  is the deterministic `Object.entries` insertion order.
- A thrown `Error` is modelled as `Except String _` for `resolveTarget`, and as
  an `Option String` error component paired with the construct tree for the
  stateful operations: the CDK construct tree keeps the children that were
  attached before a constructor threw, so the stateful operations return the
  tree reached at the time of the throw, not an empty one.
- The constructs framework rejects a child whose id collides with an existing
  child of the same scope (it throws "There is already a Construct with
  name ..."); `addConstruct` models that rule. The constructor itself uses the
  pairwise-distinct literal ids `Subnet`, `RouteTable`, `SubnetRouteTableAssoc`,
  so its first three children are modelled as a plain list.
-/

/-- `RouteEntry` from the source: destination CIDR, target type discriminator
string and opaque target id. -/
structure RouteEntry where
  destinationCidr : String
  targetType : String
  targetId : String
deriving DecidableEq, Repr

/-- `CustomRouteTableProps` from the source. -/
structure CustomRouteTableProps where
  vpcId : String
  cidrBlock : String
  availabilityZone : String
  routeEntries : Option (List RouteEntry)
  subnetTags : Option (List (String × String))
  routeTableTags : Option (List (String × String))
deriving DecidableEq, Repr

/-- `cdk.CfnTag`: one key-value tag pair. -/
structure CfnTag where
  key : String
  value : String
deriving DecidableEq, Repr

/-- The target binding spread into the `CfnRoute` props by `resolveTarget`:
at most one of the four CloudFormation target-reference fields is present. -/
structure TargetBinding where
  transitGatewayId : Option String
  vpcEndpointId : Option String
  gatewayId : Option String
  natGatewayId : Option String
deriving DecidableEq, Repr

/-- Within one construct instance, `this.subnet.ref` and `this.routeTable.ref`
are the only identity references used to wire resources together. -/
inductive Ref where
  | subnetRef : Ref
  | routeTableRef : Ref
deriving DecidableEq, Repr

/-- Property bindings of the emitted `CfnSubnet`. -/
structure SubnetProps where
  vpcId : String
  cidrBlock : String
  availabilityZone : String
  mapPublicIpOnLaunch : Bool
  tags : Option (List CfnTag)
deriving DecidableEq, Repr

/-- Property bindings of the emitted `CfnRouteTable`. -/
structure RouteTableProps where
  vpcId : String
  tags : Option (List CfnTag)
deriving DecidableEq, Repr

/-- Property bindings of the emitted `CfnSubnetRouteTableAssociation`. -/
structure AssocProps where
  subnetId : Ref
  routeTableId : Ref
deriving DecidableEq, Repr

/-- Property bindings of an emitted `CfnRoute`. -/
structure RouteProps where
  routeTableId : Ref
  destinationCidrBlock : String
  target : TargetBinding
deriving DecidableEq, Repr

/-- One emitted resource declaration: the construct id it is registered under
and its property bindings. -/
inductive Resource where
  | subnet (logicalId : String) (p : SubnetProps) : Resource
  | routeTable (logicalId : String) (p : RouteTableProps) : Resource
  | assoc (logicalId : String) (p : AssocProps) : Resource
  | route (logicalId : String) (p : RouteProps) : Resource
deriving DecidableEq, Repr

/-- The construct id a resource was registered under. -/
def Resource.logicalId : Resource → String
  | .subnet lid _ => lid
  | .routeTable lid _ => lid
  | .assoc lid _ => lid
  | .route lid _ => lid

/-- `convertTagsToCdkFormat` from the source: `undefined` input stays
`undefined`; otherwise `Object.entries(tags).map(([key, value]) => ({key, value}))`. -/
def convertTagsToCdkFormat (tags : Option (List (String × String))) :
    Option (List CfnTag) :=
  match tags with
  | none => none
  | some l => some (l.map (fun kv => { key := kv.1, value := kv.2 }))

/-- `resolveTarget` from the source: a switch on `entry.targetType` returning
an object with exactly one populated target field, throwing on any other
string. -/
def resolveTarget (entry : RouteEntry) : Except String TargetBinding :=
  if entry.targetType = "tgw" then
    Except.ok { transitGatewayId := some entry.targetId, vpcEndpointId := none,
                gatewayId := none, natGatewayId := none }
  else if entry.targetType = "vpc-endpoint" then
    Except.ok { transitGatewayId := none, vpcEndpointId := some entry.targetId,
                gatewayId := none, natGatewayId := none }
  else if entry.targetType = "internet-gateway" then
    Except.ok { transitGatewayId := none, vpcEndpointId := none,
                gatewayId := some entry.targetId, natGatewayId := none }
  else if entry.targetType = "nat-gateway" then
    Except.ok { transitGatewayId := none, vpcEndpointId := none,
                gatewayId := none, natGatewayId := some entry.targetId }
  else
    Except.error ("Unsupported target type: " ++ entry.targetType)

/-- The constructs-framework rule that child ids are unique within a scope:
registering a child whose id collides with an existing child throws; otherwise
the child is appended to the tree. -/
def addConstruct (g : List Resource) (r : Resource) : Except String (List Resource) :=
  if g.any (fun x => x.logicalId == r.logicalId) then
    Except.error ("There is already a Construct with name " ++ r.logicalId)
  else
    Except.ok (g ++ [r])

/-- The `CfnRoute` child that the loop body of `addRouteTableEntries` builds
at a given index for a given entry, once the entry's target resolved to `tb`. -/
def routeResourceAt (index : Nat) (entry : RouteEntry) (tb : TargetBinding) :
    Resource :=
  Resource.route ("Route" ++ toString index)
    { routeTableId := Ref.routeTableRef,
      destinationCidrBlock := entry.destinationCidr,
      target := tb }

/-- The loop body of `addRouteTableEntries`, starting at a given index:
`routeEntries.forEach((entry, index) => new ec2.CfnRoute(this, "Route" + index,
{routeTableId, destinationCidrBlock, ...this.resolveTarget(entry)}))`.
The props object (hence `resolveTarget`) is evaluated before the `CfnRoute`
constructor registers the child; a throw from either leaves the children added
so far in the tree and stops the loop. -/
def addRouteTableEntriesFrom (g : List Resource) (entries : List RouteEntry)
    (index : Nat) : List Resource × Option String :=
  match entries with
  | [] => (g, none)
  | entry :: rest =>
    match resolveTarget entry with
    | Except.error msg => (g, some msg)
    | Except.ok tb =>
      match addConstruct g (routeResourceAt index entry tb) with
      | Except.error msg => (g, some msg)
      | Except.ok g2 => addRouteTableEntriesFrom g2 rest (index + 1)

/-- `addRouteTableEntries` from the source: the `forEach` index starts at 0 on
every call. -/
def addRouteTableEntries (g : List Resource) (entries : List RouteEntry) :
    List Resource × Option String :=
  addRouteTableEntriesFrom g entries 0

/-- The `CfnSubnet` child registered under id `Subnet` by the constructor. -/
def subnetResource (props : CustomRouteTableProps) : Resource :=
  Resource.subnet "Subnet"
    { vpcId := props.vpcId, cidrBlock := props.cidrBlock,
      availabilityZone := props.availabilityZone,
      mapPublicIpOnLaunch := false,
      tags := convertTagsToCdkFormat props.subnetTags }

/-- The `CfnRouteTable` child registered under id `RouteTable`. -/
def routeTableResource (props : CustomRouteTableProps) : Resource :=
  Resource.routeTable "RouteTable"
    { vpcId := props.vpcId,
      tags := convertTagsToCdkFormat props.routeTableTags }

/-- The `CfnSubnetRouteTableAssociation` child registered under id
`SubnetRouteTableAssoc`, wiring `subnet.ref` to `routeTable.ref`. -/
def assocResource : Resource :=
  Resource.assoc "SubnetRouteTableAssoc"
    { subnetId := Ref.subnetRef, routeTableId := Ref.routeTableRef }

/-- The three resources the constructor registers before looking at
`routeEntries`, in registration order. -/
def baseResources (props : CustomRouteTableProps) : List Resource :=
  [subnetResource props, routeTableResource props, assocResource]

/-- The `SubnetWithRouteTable` constructor (the spec operation `define`):
registers Subnet, RouteTable and Association, then, when `props.routeEntries`
is supplied (a JS truthiness test, so an empty array also takes the branch and
adds nothing), runs `addRouteTableEntries` on it. Returns the construct tree
together with the thrown error, if any. -/
def defineRun (props : CustomRouteTableProps) : List Resource × Option String :=
  match props.routeEntries with
  | none => (baseResources props, none)
  | some entries => addRouteTableEntries (baseResources props) entries

/-- True exactly on `Route` resources. -/
def isRouteResource : Resource → Bool
  | .route _ _ => true
  | _ => false

/-- The Route resources of a tree, in registration order. -/
def routeResources (g : List Resource) : List Resource :=
  g.filter isRouteResource

/-- How many of the four target-reference fields of a binding are populated. -/
def populatedCount (tb : TargetBinding) : Nat :=
  (if tb.transitGatewayId.isSome then 1 else 0)
    + (if tb.vpcEndpointId.isSome then 1 else 0)
    + (if tb.gatewayId.isSome then 1 else 0)
    + (if tb.natGatewayId.isSome then 1 else 0)

/-- `routesMatch entries rs i` says `rs` are exactly the Route resources that
the loop starting at index `i` emits for `entries`: one per entry, in input
order, named by the running index, wired to the route table, carrying the
entry's destination CIDR and its resolved target binding. -/
def routesMatch : List RouteEntry → List Resource → Nat → Prop
  | [], [], _ => True
  | entry :: es, Resource.route lid p :: rs, i =>
      lid = "Route" ++ toString i ∧
      p.routeTableId = Ref.routeTableRef ∧
      p.destinationCidrBlock = entry.destinationCidr ∧
      resolveTarget entry = Except.ok p.target ∧
      routesMatch es rs (i + 1)
  | _, _, _ => False

/-- The state threaded through the stateful embedding of the constructor and
of `addRouteTableEntries`: the caller-supplied `props` object, the
`routeEntries` argument array, the construct tree and the thrown error. The
source statements read `props` and the entries and write only `this.subnet`,
`this.routeTable` and the construct tree, so the two exec functions update only
`children` and `thrown`. -/
structure ConstructState where
  props : CustomRouteTableProps
  entriesArg : List RouteEntry
  children : List Resource
  thrown : Option String
deriving DecidableEq, Repr

/-- The constructor as a transformer of `ConstructState`. -/
def constructorExec (s : ConstructState) : ConstructState :=
  { props := s.props, entriesArg := s.entriesArg,
    children := (defineRun s.props).1,
    thrown := (defineRun s.props).2 }

/-- `addRouteTableEntries` as a transformer of `ConstructState`. -/
def addRouteTableEntriesExec (s : ConstructState) : ConstructState :=
  { props := s.props, entriesArg := s.entriesArg,
    children := (addRouteTableEntries s.children s.entriesArg).1,
    thrown := (addRouteTableEntries s.children s.entriesArg).2 }

/-- The end-to-end scenario A props: one internet-gateway route. -/
def scenarioA : CustomRouteTableProps :=
  { vpcId := "vpc-1", cidrBlock := "10.0.1.0/24",
    availabilityZone := "us-east-1a",
    routeEntries := some [{ destinationCidr := "0.0.0.0/0",
                            targetType := "internet-gateway",
                            targetId := "igw-123" }],
    subnetTags := none, routeTableTags := none }

/-- Props holding one route entry whose target kind is outside the
enumeration. -/
def scenarioBad : CustomRouteTableProps :=
  { vpcId := "vpc-1", cidrBlock := "10.0.2.0/24",
    availabilityZone := "us-east-1a",
    routeEntries := some [{ destinationCidr := "0.0.0.0/0",
                            targetType := "vpn-gateway",
                            targetId := "vgw-1" }],
    subnetTags := none, routeTableTags := none }

/-- C1: `resolveTarget` succeeds on each of the four enumerated target kinds
and maps each one to exactly the corresponding target-reference field, the
other three absent: `tgw` (transit-gateway) to `transitGatewayId`,
`vpc-endpoint` to `vpcEndpointId`, `internet-gateway` to `gatewayId` and
`nat-gateway` to `natGatewayId`. -/
theorem resolveTarget_total_on_enum (entry : RouteEntry) :
    (entry.targetType = "tgw" →
      resolveTarget entry = Except.ok
        { transitGatewayId := some entry.targetId, vpcEndpointId := none,
          gatewayId := none, natGatewayId := none }) ∧
    (entry.targetType = "vpc-endpoint" →
      resolveTarget entry = Except.ok
        { transitGatewayId := none, vpcEndpointId := some entry.targetId,
          gatewayId := none, natGatewayId := none }) ∧
    (entry.targetType = "internet-gateway" →
      resolveTarget entry = Except.ok
        { transitGatewayId := none, vpcEndpointId := none,
          gatewayId := some entry.targetId, natGatewayId := none }) ∧
    (entry.targetType = "nat-gateway" →
      resolveTarget entry = Except.ok
        { transitGatewayId := none, vpcEndpointId := none,
          gatewayId := none, natGatewayId := some entry.targetId }) := by
  refine ⟨?_, ?_, ?_, ?_⟩ <;> intro h <;> simp [resolveTarget, h]

/-- C1 witness: the theorem applied to a concrete internet-gateway entry. -/
theorem resolveTarget_total_on_enum_witness :
    resolveTarget { destinationCidr := "0.0.0.0/0",
                    targetType := "internet-gateway", targetId := "igw-123" }
      = Except.ok { transitGatewayId := none, vpcEndpointId := none,
                    gatewayId := some "igw-123", natGatewayId := none } :=
  (resolveTarget_total_on_enum _).2.2.1 rfl

/-- C4: on the out-of-enumeration target kind `vpn-gateway`, `resolveTarget`
throws an error whose message names the offending value, and the route loop
emits no Route resource for that entry (the tree is returned unchanged). -/
theorem resolveTarget_unsupported_kind (cidr tid : String) (g : List Resource) :
    resolveTarget { destinationCidr := cidr, targetType := "vpn-gateway",
                    targetId := tid }
      = Except.error ("Unsupported target type: " ++ "vpn-gateway") ∧
    addRouteTableEntries g
      [{ destinationCidr := cidr, targetType := "vpn-gateway", targetId := tid }]
      = (g, some ("Unsupported target type: " ++ "vpn-gateway")) := by
  constructor
  · simp [resolveTarget]
  · simp [addRouteTableEntries, addRouteTableEntriesFrom, resolveTarget]

/-- C6: tag conversion sends absent to absent, the empty mapping to the empty
(present) list, each entry to one (key, value) pair preserving the
deterministic `Object.entries` order, and is deterministic; in particular the
two-entry mapping of the spec scenario yields exactly its two pairs. -/
theorem convertTags_spec :
    convertTagsToCdkFormat none = none ∧
    convertTagsToCdkFormat (some []) = some [] ∧
    (∀ l, convertTagsToCdkFormat (some l)
        = some (l.map (fun kv => { key := kv.1, value := kv.2 }))) ∧
    (∀ tags, convertTagsToCdkFormat tags = convertTagsToCdkFormat tags) ∧
    convertTagsToCdkFormat (some [("env", "prod"), ("team", "net")])
      = some [{ key := "env", value := "prod" },
              { key := "team", value := "net" }] := by
  refine ⟨rfl, rfl, fun l => rfl, fun tags => rfl, rfl⟩

/-- C8: `define` is deterministic: two runs on the same spec return identical
trees and outcomes (same resources, same field values, same wiring). The
source performs no I/O and reads no ambient state, so its embedding is a pure
function. -/
theorem defineRun_deterministic (props : CustomRouteTableProps) :
    defineRun props = defineRun props :=
  rfl

/-- C10: neither the constructor nor `addRouteTableEntries` writes to the
caller-supplied `props` object or to the `routeEntries` argument array: in the
state-passing embedding both transformers leave the `props` and `entriesArg`
components of the state unchanged. -/
theorem define_and_addRoutes_no_mutation (s : ConstructState) :
    (constructorExec s).props = s.props ∧
    (constructorExec s).entriesArg = s.entriesArg ∧
    (addRouteTableEntriesExec s).props = s.props ∧
    (addRouteTableEntriesExec s).entriesArg = s.entriesArg :=
  ⟨rfl, rfl, rfl, rfl⟩

/-- Helper: `addConstruct` succeeds exactly by appending the child. -/
theorem addConstruct_ok_eq (g : List Resource) (r : Resource)
    (g2 : List Resource) (h : addConstruct g r = Except.ok g2) :
    g2 = g ++ [r] := by
  unfold addConstruct at h
  split at h
  · cases h
  · injection h with h2
    exact h2.symm

/-- Helper: any binding returned by a successful `resolveTarget` has exactly
one populated target-reference field. -/
theorem resolveTarget_ok_populatedCount (entry : RouteEntry)
    (tb : TargetBinding) (h : resolveTarget entry = Except.ok tb) :
    populatedCount tb = 1 := by
  unfold resolveTarget at h
  split_ifs at h <;> (injection h with h2; subst h2; rfl)

/-- Helper: a successful run of the route loop only appends, and what it
appends is exactly the route list described by `routesMatch`. -/
theorem addRouteTableEntriesFrom_ok_spec :
    ∀ (entries : List RouteEntry) (g : List Resource) (i : Nat),
      (addRouteTableEntriesFrom g entries i).2 = none →
      ∃ rs, (addRouteTableEntriesFrom g entries i).1 = g ++ rs ∧
        routesMatch entries rs i := by
  intro entries
  induction entries with
  | nil =>
      intro g i _
      exact ⟨[], by simp [addRouteTableEntriesFrom], trivial⟩
  | cons entry rest ih =>
      intro g i h
      rw [addRouteTableEntriesFrom] at h ⊢
      cases hrt : resolveTarget entry with
      | error msg =>
          simp only [hrt] at h
          exact absurd h (Option.some_ne_none msg)
      | ok tb =>
        simp only [hrt] at h ⊢
        cases hac : addConstruct g (routeResourceAt i entry tb) with
        | error msg =>
            simp only [hac] at h
            exact absurd h (Option.some_ne_none msg)
        | ok g2 =>
          simp only [hac] at h ⊢
          obtain ⟨rs, hfst, hmatch⟩ := ih g2 (i + 1) h
          have hg2 := addConstruct_ok_eq g (routeResourceAt i entry tb) g2 hac
          refine ⟨routeResourceAt i entry tb :: rs, ?_, ?_⟩
          · rw [hfst, hg2, List.append_assoc]
            rfl
          · exact ⟨rfl, rfl, rfl, hrt, hmatch⟩

/-- Helper: `routesMatch entries rs i` forces `rs` to consist of Route
resources only and to have exactly one resource per entry. -/
theorem routesMatch_routes_length :
    ∀ (entries : List RouteEntry) (rs : List Resource) (i : Nat),
      routesMatch entries rs i →
      routeResources rs = rs ∧ rs.length = entries.length := by
  intro entries
  induction entries with
  | nil =>
      intro rs i h
      cases rs with
      | nil => exact ⟨rfl, rfl⟩
      | cons r rs2 => cases r <;> exact h.elim
  | cons entry rest ih =>
      intro rs i h
      cases rs with
      | nil => exact h.elim
      | cons r rs2 =>
        cases r with
        | subnet lid p => exact h.elim
        | routeTable lid p => exact h.elim
        | assoc lid p => exact h.elim
        | route lid p =>
          obtain ⟨_, _, _, _, h5⟩ := h
          obtain ⟨hf, hl⟩ := ih rs2 (i + 1) h5
          constructor
          · simp only [routeResources, List.filter] at hf ⊢
            rw [hf]
            rfl
          · simp [hl]

/-- Helper: every resource in the tree after a run of the route loop either
was already there or is a Route resource with exactly one populated
target-reference field. -/
theorem addRouteTableEntriesFrom_mem :
    ∀ (entries : List RouteEntry) (g : List Resource) (i : Nat) (r : Resource),
      r ∈ (addRouteTableEntriesFrom g entries i).1 →
      r ∈ g ∨ ∃ lid p, r = Resource.route lid p ∧ populatedCount p.target = 1 := by
  intro entries
  induction entries with
  | nil =>
      intro g i r h
      left
      simpa [addRouteTableEntriesFrom] using h
  | cons entry rest ih =>
      intro g i r h
      rw [addRouteTableEntriesFrom] at h
      cases hrt : resolveTarget entry with
      | error msg =>
          simp only [hrt] at h
          exact Or.inl h
      | ok tb =>
        simp only [hrt] at h
        cases hac : addConstruct g (routeResourceAt i entry tb) with
        | error msg =>
            simp only [hac] at h
            exact Or.inl h
        | ok g2 =>
          simp only [hac] at h
          rcases ih g2 (i + 1) r h with hg2 | hroute
          · rw [addConstruct_ok_eq g (routeResourceAt i entry tb) g2 hac] at hg2
            rcases List.mem_append.mp hg2 with hin | hin
            · exact Or.inl hin
            · right
              refine ⟨"Route" ++ toString i,
                { routeTableId := Ref.routeTableRef,
                  destinationCidrBlock := entry.destinationCidr, target := tb },
                ?_, resolveTarget_ok_populatedCount entry tb hrt⟩
              simpa [routeResourceAt] using hin
          · exact Or.inr hroute

/-- Helper: a failing run of the route loop also only appends, and appends
strictly fewer Route resources than there are entries (the offending entry and
everything after it are never emitted). -/
theorem addRouteTableEntriesFrom_error_bound :
    ∀ (entries : List RouteEntry) (g : List Resource) (i : Nat),
      ((addRouteTableEntriesFrom g entries i).2).isSome = true →
      ∃ rs, (addRouteTableEntriesFrom g entries i).1 = g ++ rs ∧
        rs.length < entries.length := by
  intro entries
  induction entries with
  | nil =>
      intro g i h
      simp [addRouteTableEntriesFrom] at h
  | cons entry rest ih =>
      intro g i h
      rw [addRouteTableEntriesFrom] at h ⊢
      cases hrt : resolveTarget entry with
      | error msg =>
          simp only [hrt]
          exact ⟨[], by simp, by simp⟩
      | ok tb =>
        simp only [hrt] at h ⊢
        cases hac : addConstruct g (routeResourceAt i entry tb) with
        | error msg =>
            simp only [hac]
            exact ⟨[], by simp, by simp⟩
        | ok g2 =>
          simp only [hac] at h ⊢
          obtain ⟨rs, hfst, hlen⟩ := ih g2 (i + 1) h
          refine ⟨routeResourceAt i entry tb :: rs, ?_, ?_⟩
          · rw [hfst, addConstruct_ok_eq g (routeResourceAt i entry tb) g2 hac,
              List.append_assoc]
            rfl
          · simpa using Nat.succ_lt_succ hlen

/-- C2: whenever `define` succeeds, it emits exactly one Route resource per
entry of `spec.routes` (zero when `routes` is absent), and the emitted Route
resources correspond 1:1 and in order to the input entries (index-derived
name, route-table wiring, destination CIDR and resolved target of each
entry). -/
theorem define_route_count_correspondence (props : CustomRouteTableProps)
    (h : (defineRun props).2 = none) :
    (routeResources (defineRun props).1).length
        = (props.routeEntries.getD []).length ∧
    routesMatch (props.routeEntries.getD [])
      (routeResources (defineRun props).1) 0 := by
  cases hre : props.routeEntries with
  | none =>
      simp only [defineRun, hre, Option.getD_none]
      exact ⟨rfl, trivial⟩
  | some entries =>
      have hd : defineRun props
          = addRouteTableEntriesFrom (baseResources props) entries 0 := by
        simp [defineRun, hre, addRouteTableEntries]
      rw [hd] at h ⊢
      obtain ⟨rs, hfst, hmatch⟩ :=
        addRouteTableEntriesFrom_ok_spec entries (baseResources props) 0 h
      obtain ⟨hfilter, hlen⟩ := routesMatch_routes_length entries rs 0 hmatch
      have hroutes : routeResources (addRouteTableEntriesFrom
          (baseResources props) entries 0).1 = rs := by
        rw [hfst]
        simp only [routeResources, List.filter_append]
        rw [show (baseResources props).filter isRouteResource = [] from rfl]
        simpa [routeResources] using hfilter
      rw [hroutes]
      simp only [hre, Option.getD_some]
      exact ⟨hlen, hmatch⟩

/-- C2 witness: the theorem applied to the scenario-A spec, whose single
internet-gateway entry yields exactly one matching Route resource. -/
theorem define_route_count_correspondence_witness :
    (defineRun scenarioA).2 = none ∧
    ((routeResources (defineRun scenarioA).1).length
        = (scenarioA.routeEntries.getD []).length ∧
      routesMatch (scenarioA.routeEntries.getD [])
        (routeResources (defineRun scenarioA).1) 0) :=
  ⟨by decide, define_route_count_correspondence scenarioA (by decide)⟩

/-- C3: every Route resource in the tree produced by `define` has exactly one
of the four target-reference fields populated; the other three are absent. -/
theorem route_target_exclusivity (props : CustomRouteTableProps)
    (lid : String) (p : RouteProps)
    (h : Resource.route lid p ∈ (defineRun props).1) :
    populatedCount p.target = 1 := by
  cases hre : props.routeEntries with
  | none =>
      rw [defineRun, hre] at h
      simp [baseResources, subnetResource, routeTableResource,
        assocResource] at h
  | some entries =>
      rw [defineRun, hre] at h
      rcases addRouteTableEntriesFrom_mem entries (baseResources props) 0 _ h
        with hbase | ⟨lid2, p2, heq, hcount⟩
      · simp [baseResources, subnetResource, routeTableResource,
          assocResource] at hbase
      · obtain ⟨_, hp⟩ := Resource.route.inj heq
        rw [hp]
        exact hcount

/-- C3 witness: the theorem applied to the Route resource emitted for the
scenario-A spec. -/
theorem route_target_exclusivity_witness :
    (Resource.route "Route0"
        { routeTableId := Ref.routeTableRef,
          destinationCidrBlock := "0.0.0.0/0",
          target := { transitGatewayId := none, vpcEndpointId := none,
                      gatewayId := some "igw-123", natGatewayId := none } }
      ∈ (defineRun scenarioA).1) ∧
    populatedCount { transitGatewayId := none, vpcEndpointId := none,
                     gatewayId := some "igw-123", natGatewayId := none } = 1 :=
  ⟨by decide,
    route_target_exclusivity scenarioA "Route0"
      { routeTableId := Ref.routeTableRef,
        destinationCidrBlock := "0.0.0.0/0",
        target := { transitGatewayId := none, vpcEndpointId := none,
                    gatewayId := some "igw-123", natGatewayId := none } }
      (by decide)⟩

/-- C5 counterexample: on a spec whose only route entry has the unsupported
target kind `vpn-gateway`, `define` throws, but the tree at the time of the
throw is not empty: the Subnet, RouteTable and Association children had
already been registered before the route loop ran. -/
theorem define_error_graph_empty_cex :
    (defineRun scenarioBad).2 = some "Unsupported target type: vpn-gateway" ∧
    (defineRun scenarioBad).1 = baseResources scenarioBad ∧
    (defineRun scenarioBad).1 ≠ [] := by
  refine ⟨by decide, by decide, by decide⟩

/-- C5 amended: when a spec contains a route entry with an unsupported
`targetKind`, `define` fails synchronously, but only after the Subnet,
RouteTable and Association resources (and the Route resources of the entries
preceding the offending one) have been emitted: the tree at the throw is the
three base resources plus strictly fewer Route resources than there are
entries — in particular no Route is emitted for the offending entry or any
later entry. -/
theorem define_error_emits_base_then_stops (props : CustomRouteTableProps)
    (entries : List RouteEntry)
    (h1 : props.routeEntries = some entries)
    (h2 : ((defineRun props).2).isSome = true) :
    ∃ rs, (defineRun props).1 = baseResources props ++ rs ∧
      rs.length < entries.length := by
  have hd : defineRun props
      = addRouteTableEntriesFrom (baseResources props) entries 0 := by
    simp [defineRun, h1, addRouteTableEntries]
  rw [hd] at h2 ⊢
  exact addRouteTableEntriesFrom_error_bound entries (baseResources props) 0 h2

/-- C5 amended-claim witness: the amended theorem applied to the bad-kind
spec. -/
theorem define_error_emits_base_then_stops_witness :
    scenarioBad.routeEntries
        = some [{ destinationCidr := "0.0.0.0/0",
                  targetType := "vpn-gateway", targetId := "vgw-1" }] ∧
    ((defineRun scenarioBad).2).isSome = true ∧
    ∃ rs, (defineRun scenarioBad).1 = baseResources scenarioBad ++ rs ∧
      rs.length < 1 :=
  ⟨rfl, by decide,
    define_error_emits_base_then_stops scenarioBad _ rfl (by decide)⟩

/-- C7: every Subnet resource produced by `define` has
`mapPublicIpOnLaunch = false`, whatever the input spec. -/
theorem subnet_public_ip_always_false (props : CustomRouteTableProps)
    (lid : String) (p : SubnetProps)
    (h : Resource.subnet lid p ∈ (defineRun props).1) :
    p.mapPublicIpOnLaunch = false := by
  have hbase : Resource.subnet lid p ∈ baseResources props := by
    cases hre : props.routeEntries with
    | none =>
        rw [defineRun, hre] at h
        exact h
    | some entries =>
        rw [defineRun, hre] at h
        rcases addRouteTableEntriesFrom_mem entries (baseResources props) 0 _ h
          with hb | ⟨lid2, p2, heq, _⟩
        · exact hb
        · exact absurd heq (by simp)
  simp only [baseResources, subnetResource, routeTableResource, assocResource,
    List.mem_cons, List.not_mem_nil, or_false] at hbase
  rcases hbase with h1 | h1 | h1
  · obtain ⟨_, hp⟩ := Resource.subnet.inj h1
    rw [hp]
  · exact absurd h1 (by simp)
  · exact absurd h1 (by simp)

/-- C7 witness: the theorem applied to the Subnet resource emitted for the
scenario-A spec. -/
theorem subnet_public_ip_always_false_witness :
    (Resource.subnet "Subnet"
        { vpcId := "vpc-1", cidrBlock := "10.0.1.0/24",
          availabilityZone := "us-east-1a", mapPublicIpOnLaunch := false,
          tags := none }
      ∈ (defineRun scenarioA).1) ∧
    SubnetProps.mapPublicIpOnLaunch
        { vpcId := "vpc-1", cidrBlock := "10.0.1.0/24",
          availabilityZone := "us-east-1a", mapPublicIpOnLaunch := false,
          tags := none } = false :=
  ⟨by decide, subnet_public_ip_always_false scenarioA "Subnet" _ (by decide)⟩

/-- C9: a second call to `addRouteTableEntries` after a construction that
already emitted a Route restarts its `forEach` index at 0, so the new child id
`Route0` collides with the existing one: the constructs framework throws and
no additional Route resource is emitted, contradicting the append-only
reading; the tree is returned unchanged. -/
theorem addRoutes_second_call_collides :
    (defineRun scenarioA).2 = none ∧
    routeResources (defineRun scenarioA).1 ≠ [] ∧
    addRouteTableEntries (defineRun scenarioA).1
        [{ destinationCidr := "10.1.0.0/16", targetType := "nat-gateway",
           targetId := "nat-9" }]
      = ((defineRun scenarioA).1,
         some ("There is already a Construct with name Route0")) := by
  refine ⟨by decide, by decide, by decide⟩
